import Mathlib

/-!
# Verification of the `gestor_gastos` alert / statistics / model subsystem

Shallow embedding of the anomaly-detection, expense-prediction and
budget/alert aggregation core of the repository, together with proofs of
the frozen specification claims.

Conventions of the embedding:
* monetary values and timestamps are exact rationals (`ℚ`); a timestamp is
  the POSIX epoch value in seconds together with the calendar observations
  (`weekday`, `day`, `month`, `hour`) that the code extracts from it;
* Python's `round(x, n)` (round-half-to-even on the scaled value) is
  modelled exactly on `ℚ`;
* fallible code is modelled in `Except PyErr`; a Python function that
  returns a falsy failure value returns `Except.ok none`;
* the SQL ledger, `sklearn`, pickling and the filesystem are external
  collaborators: ledger query results are passed in as lists, fitted
  estimators / scalers are opaque functions supplied through an oracle
  record, and persisted snapshots are passed as `Option` values.
-/

/-- Python exception kinds that can escape the embedded functions. -/
inductive PyErr where
  | typeError
  | keyError
  | valueError
  | attributeError
  | notFittedError
deriving DecidableEq, Repr

/-- A `datetime` value: the epoch timestamp (seconds, exact) plus the
calendar fields the code reads off it (`weekday()`, `.day`, `.month`,
`.hour`).  Subtraction of two datetimes observed through
`total_seconds()` is the difference of the epoch fields. -/
structure Fecha where
  epoch : ℚ
  weekday : ℕ
  day : ℕ
  month : ℕ
  hour : ℕ
deriving DecidableEq, Repr

/-- A row of the `transacciones` table (src/utils/database.py,
`Transaccion`); the fields the core reads. -/
structure Transaccion where
  tipo : String
  fecha : Fecha
  monto : ℚ
  categoria : String
  subcategoria : Option String
  metodo_pago : String
  motivo : Option String
  es_recurrente : Bool
deriving DecidableEq, Repr

/-- A row of the `presupuestos` table (src/utils/database.py,
`Presupuesto`). -/
structure Presupuesto where
  categoria : String
  monto_mensual : ℚ
  alerta_porcentaje : ℚ
  activo : Bool
deriving DecidableEq, Repr

/-- Round a rational to the nearest integer, ties to even: the exact
semantics of Python's `round` on an exactly-representable value. -/
def pyRoundUnit (x : ℚ) : ℤ :=
  let f : ℤ := ⌊x⌋
  let r : ℚ := x - f
  if r < 1/2 then f
  else if 1/2 < r then f + 1
  else if f % 2 = 0 then f else f + 1

/-- Python's `round(x, d)` on exact rationals. -/
def pyRound (x : ℚ) (d : ℕ) : ℚ :=
  (pyRoundUnit (x * 10 ^ d) : ℚ) / 10 ^ d

/-! ## Alert system (src/utils/alertas.py, `SistemaAlertas`) -/

-- (budget and duplicate checks; the claim theorems follow the definitions)

/-- Current-month spend of one category: the inner loop of
`verificar_presupuestos` that accumulates `gastos_categoria` and then
reads it back with `.get(categoria, 0)`.  `transacciones_mes` is the
ledger's answer to `obtener_transacciones_por_fecha(inicio_mes, hoy)`. -/
def gasto_actual (transacciones_mes : List Transaccion) (categoria : String) : ℚ :=
  ((transacciones_mes.filter fun t => t.tipo == "gasto" && t.categoria == categoria).map
    (·.monto)).sum

/-- `porcentaje_usado` for one budget (src/utils/alertas.py line 54),
including the division-by-zero guard. -/
def porcentaje_usado (transacciones_mes : List Transaccion) (p : Presupuesto) : ℚ :=
  if 0 < p.monto_mensual then
    gasto_actual transacciones_mes p.categoria / p.monto_mensual * 100
  else 0

/-- One budget alert record.  The informational `mensaje` and the
generation timestamp `fecha` of the Python dict carry no further data and
are not modelled. -/
structure AlertaPresupuesto where
  nivel : String
  categoria : String
  porcentaje_usado : ℚ
  gasto_actual : ℚ
  presupuesto_total : ℚ
deriving DecidableEq, Repr

/-- The body of the `for presupuesto in presupuestos` loop of
`verificar_presupuestos`: the alert this budget contributes, if any. -/
def alerta_presupuesto_de (transacciones_mes : List Transaccion) (p : Presupuesto) :
    Option AlertaPresupuesto :=
  let pct := porcentaje_usado transacciones_mes p
  if p.alerta_porcentaje ≤ pct then
    some
      { nivel := if 100 ≤ pct then "CRÍTICO" else "ADVERTENCIA"
        categoria := p.categoria
        porcentaje_usado := pyRound pct 1
        gasto_actual := pyRound (gasto_actual transacciones_mes p.categoria) 2
        presupuesto_total := pyRound p.monto_mensual 2 }
  else none

/-- `SistemaAlertas.verificar_presupuestos`: the DB query keeps only
budgets with `activo == 1`; each surviving budget appends at most one
alert. -/
def verificar_presupuestos (presupuestos : List Presupuesto)
    (transacciones_mes : List Transaccion) : List AlertaPresupuesto :=
  (presupuestos.filter (·.activo)).filterMap (alerta_presupuesto_de transacciones_mes)

/-- One duplicate-expense alert record (`verificar_gastos_duplicados`);
`fecha1`/`fecha2` are the epoch timestamps of the pair.  The
informational `mensaje`/`fecha` dict entries are not modelled. -/
structure AlertaDuplicado where
  nivel : String
  monto : ℚ
  categoria : String
  fecha1 : ℚ
  fecha2 : ℚ
  diferencia_minutos : ℚ
deriving DecidableEq, Repr

/-- The body of the inner loop of `verificar_gastos_duplicados`: the alert
produced by an ordered pair `(gasto1, gasto2)`, if any.  `diff_tiempo` is
`abs((gasto1.fecha - gasto2.fecha).total_seconds() / 3600)`. -/
def alerta_duplicado_de (ventana_horas : ℚ) (gasto1 gasto2 : Transaccion) :
    Option AlertaDuplicado :=
  if |gasto1.monto - gasto2.monto| < 1/100 && gasto1.categoria == gasto2.categoria then
    if |(gasto1.fecha.epoch - gasto2.fecha.epoch) / 3600| ≤ ventana_horas then
      some
        { nivel := "INFO"
          monto := pyRound gasto1.monto 2
          categoria := gasto1.categoria
          fecha1 := gasto1.fecha.epoch
          fecha2 := gasto2.fecha.epoch
          diferencia_minutos :=
            pyRound (|(gasto1.fecha.epoch - gasto2.fecha.epoch) / 3600| * 60) 1 }
    else none
  else none

/-- The ordered pairs `(l[i], l[j])` with `i < j`: the iteration space of
the nested `for i, gasto1 in enumerate(gastos): for gasto2 in
gastos[i+1:]` loops. -/
def pares {α : Type} : List α → List (α × α)
  | [] => []
  | x :: xs => (xs.map (Prod.mk x)) ++ pares xs

/-- The nested loops of `verificar_gastos_duplicados` over the expense
list. -/
def duplicados_loop (ventana_horas : ℚ) : List Transaccion → List AlertaDuplicado
  | [] => []
  | g1 :: rest =>
      (rest.filterMap (alerta_duplicado_de ventana_horas g1)) ++
        duplicados_loop ventana_horas rest

/-- `SistemaAlertas.verificar_gastos_duplicados`: the ledger fetch of the
trailing 24 hours is external, so the function receives the windowed
transaction list and keeps only expenses. -/
def verificar_gastos_duplicados (ventana_horas : ℚ)
    (transacciones : List Transaccion) : List AlertaDuplicado :=
  duplicados_loop ventana_horas (transacciones.filter fun t => t.tipo == "gasto")

/-- The nested duplicate-detection loops enumerate exactly the ordered
pairs `i < j` of the expense list. -/
theorem duplicados_loop_eq_pares (v : ℚ) (l : List Transaccion) :
    duplicados_loop v l =
      (pares l).filterMap fun pr => alerta_duplicado_de v pr.1 pr.2 := by
  induction l with
  | nil => rfl
  | cons x xs ih =>
      simp only [duplicados_loop, pares, List.filterMap_append, ih, List.filterMap_map]
      rfl

/-- Every alert the pair-body produces carries severity `INFO`. -/
theorem alerta_duplicado_nivel (v : ℚ) (g1 g2 : Transaccion) (a : AlertaDuplicado)
    (h : alerta_duplicado_de v g1 g2 = some a) : a.nivel = "INFO" := by
  unfold alerta_duplicado_de at h
  split_ifs at h
  cases h
  rfl

/-- Concrete fixture: a reference timestamp. -/
def fechaEj : Fecha := ⟨1700000000, 2, 15, 11, 12⟩

/-- Concrete fixture: a timestamp `s` seconds before `fechaEj`. -/
def fechaAntes (s : ℚ) : Fecha := ⟨1700000000 - s, 2, 15, 11, 11⟩

/-- Concrete fixture: an expense of `m` in category `c` at time `f`. -/
def gastoEn (c : String) (m : ℚ) (f : Fecha) : Transaccion :=
  ⟨"gasto", f, m, c, none, "Efectivo", none, false⟩

/-- C7: `verificar_gastos_duplicados` emits exactly one INFO alert per
ordered pair of expense transactions (of the 24-hour window handed over
by the ledger) whose amounts differ by less than `0.01`, whose categories
are equal, and whose timestamps are at most `ventana_horas` apart, and no
alert for any other pair. -/
theorem claim_C7_duplicados (v : ℚ) (txs : List Transaccion) :
    verificar_gastos_duplicados v txs =
      ((pares (txs.filter fun t => t.tipo == "gasto")).filterMap
        fun pr => alerta_duplicado_de v pr.1 pr.2) ∧
    (∀ g1 g2 : Transaccion,
      (alerta_duplicado_de v g1 g2).isSome ↔
        (|g1.monto - g2.monto| < 1/100 ∧ g1.categoria = g2.categoria ∧
          |(g1.fecha.epoch - g2.fecha.epoch) / 3600| ≤ v)) ∧
    (∀ a ∈ verificar_gastos_duplicados v txs, a.nivel = "INFO") := by
  refine ⟨duplicados_loop_eq_pares v _, ?_, ?_⟩
  · intro g1 g2
    constructor
    · intro h
      unfold alerta_duplicado_de at h
      split_ifs at h with h1 h2
      · simp only [Bool.and_eq_true, decide_eq_true_eq, beq_iff_eq] at h1
        exact ⟨h1.1, h1.2, h2⟩
      · simp at h
      · simp at h
    · rintro ⟨h1, h2, h3⟩
      unfold alerta_duplicado_de
      have hb : (|g1.monto - g2.monto| < 1/100 && g1.categoria == g2.categoria) = true := by
        simp only [Bool.and_eq_true, decide_eq_true_eq, beq_iff_eq]
        exact ⟨h1, h2⟩
      rw [if_pos hb, if_pos h3]
      rfl
  · intro a ha
    unfold verificar_gastos_duplicados at ha
    rw [duplicados_loop_eq_pares] at ha
    rcases List.mem_filterMap.mp ha with ⟨pr, _, hsome⟩
    exact alerta_duplicado_nivel v pr.1 pr.2 a hsome

/-- C7 witness: the `$42.50`/`$42.50` "Comida" pair 20 minutes apart
yields exactly one INFO alert with `diferencia_minutos = 20`; the same
pair 90 minutes apart (default 1-hour window) yields none. -/
theorem claim_C7_duplicados_witness :
    verificar_gastos_duplicados 1
        [gastoEn "Comida" (85/2) fechaEj, gastoEn "Comida" (85/2) (fechaAntes 1200)] =
      [⟨"INFO", 85/2, "Comida", 1700000000, 1700000000 - 1200, 20⟩] ∧
    verificar_gastos_duplicados 1
        [gastoEn "Comida" (85/2) fechaEj, gastoEn "Comida" (85/2) (fechaAntes 5400)] = [] ∧
    (∀ a ∈ verificar_gastos_duplicados 1
        [gastoEn "Comida" (85/2) fechaEj, gastoEn "Comida" (85/2) (fechaAntes 1200)],
      a.nivel = "INFO") := by
  refine ⟨?_, ?_,
    (claim_C7_duplicados 1
      [gastoEn "Comida" (85/2) fechaEj, gastoEn "Comida" (85/2) (fechaAntes 1200)]).2.2⟩
  · norm_num [verificar_gastos_duplicados, duplicados_loop, alerta_duplicado_de,
      gastoEn, fechaEj, fechaAntes, pyRound, pyRoundUnit, List.filterMap_cons,
      abs_of_nonneg]
  · have h : ¬(|((1700000000:ℚ) - (1700000000 - 5400)) / 3600| ≤ 1) := by
      norm_num [abs_of_nonneg]
    norm_num [verificar_gastos_duplicados, duplicados_loop, alerta_duplicado_de,
      gastoEn, fechaEj, fechaAntes, List.filterMap_cons, abs_of_nonneg]

/-- Closed form of the per-budget loop body, with the `let` expanded. -/
theorem alerta_presupuesto_de_eq (txs : List Transaccion) (p : Presupuesto) :
    alerta_presupuesto_de txs p =
      if p.alerta_porcentaje ≤ porcentaje_usado txs p then
        some
          ⟨if 100 ≤ porcentaje_usado txs p then "CRÍTICO" else "ADVERTENCIA",
            p.categoria, pyRound (porcentaje_usado txs p) 1,
            pyRound (gasto_actual txs p.categoria) 2, pyRound p.monto_mensual 2⟩
      else none := rfl

/-- C2: for an active budget with positive monthly amount,
`verificar_presupuestos` emits an alert for the budget iff the
current-month percent-used (`spend/budget×100`) reaches the configured
threshold, with severity `CRÍTICO` exactly when percent-used `≥ 100` and
`ADVERTENCIA` otherwise, and the alert reports the percent rounded to one
decimal. -/
theorem claim_C2_presupuestos (txs : List Transaccion) (p : Presupuesto)
    (hact : p.activo = true) (hpos : 0 < p.monto_mensual) :
    porcentaje_usado txs p = gasto_actual txs p.categoria / p.monto_mensual * 100 ∧
    ((verificar_presupuestos [p] txs ≠ []) ↔
      p.alerta_porcentaje ≤ porcentaje_usado txs p) ∧
    (∀ a ∈ verificar_presupuestos [p] txs,
      (a.nivel = "CRÍTICO" ↔ 100 ≤ porcentaje_usado txs p) ∧
      (a.nivel = "ADVERTENCIA" ↔ porcentaje_usado txs p < 100) ∧
      a.porcentaje_usado = pyRound (porcentaje_usado txs p) 1) := by
  refine ⟨by rw [porcentaje_usado, if_pos hpos], ?_, ?_⟩
  · by_cases hth : p.alerta_porcentaje ≤ porcentaje_usado txs p
    · simp [verificar_presupuestos, hact, alerta_presupuesto_de, hth]
    · simp [verificar_presupuestos, hact, alerta_presupuesto_de, hth]
  · intro a ha
    unfold verificar_presupuestos at ha
    rcases List.mem_filterMap.mp ha with ⟨q, hq, hsome⟩
    have hq' : q = p := List.mem_singleton.mp (List.mem_filter.mp hq).1
    rw [hq'] at hsome
    by_cases hth : p.alerta_porcentaje ≤ porcentaje_usado txs p
    · rw [alerta_presupuesto_de_eq, if_pos hth] at hsome
      cases hsome
      by_cases hcrit : 100 ≤ porcentaje_usado txs p
      · simp [if_pos hcrit, hcrit, not_lt.mpr hcrit]
      · simp [if_neg hcrit, hcrit, not_le.mp hcrit]
    · rw [alerta_presupuesto_de_eq, if_neg hth] at hsome
      cases hsome

/-- Concrete fixture: the `$1000` "Comida" budget with the default 80 %
alert threshold. -/
def pComida : Presupuesto := ⟨"Comida", 1000, 80, true⟩

/-- C2 witness: spend `$850` on a `$1000`/80 % budget gives one
`ADVERTENCIA` alert at `85.0` %; spend `$1000` gives one `CRÍTICO` alert
at `100.0` %. -/
theorem claim_C2_presupuestos_witness :
    pComida.activo = true ∧ 0 < pComida.monto_mensual ∧
    ((verificar_presupuestos [pComida] [gastoEn "Comida" 850 fechaEj] ≠ []) ↔
      pComida.alerta_porcentaje ≤
        porcentaje_usado [gastoEn "Comida" 850 fechaEj] pComida) ∧
    verificar_presupuestos [pComida] [gastoEn "Comida" 850 fechaEj] =
      [⟨"ADVERTENCIA", "Comida", 85, 850, 1000⟩] ∧
    verificar_presupuestos [pComida] [gastoEn "Comida" 1000 fechaEj] =
      [⟨"CRÍTICO", "Comida", 100, 1000, 1000⟩] := by
  refine ⟨rfl, by norm_num [pComida],
    (claim_C2_presupuestos [gastoEn "Comida" 850 fechaEj] pComida rfl
      (by norm_num [pComida])).2.1, ?_, ?_⟩
  · norm_num [verificar_presupuestos, alerta_presupuesto_de, porcentaje_usado,
      gasto_actual, pComida, gastoEn, fechaEj, pyRound, pyRoundUnit,
      List.filterMap_cons]
  · norm_num [verificar_presupuestos, alerta_presupuesto_de, porcentaje_usado,
      gasto_actual, pComida, gastoEn, fechaEj, pyRound, pyRoundUnit,
      List.filterMap_cons]

/-- C10: an active budget whose monthly amount is not positive gets
percent-used `0` by the guard (no division), and with the default 80 %
threshold it never produces an alert. -/
theorem claim_C10_presupuesto_no_positivo (txs : List Transaccion) (p : Presupuesto)
    (hact : p.activo = true) (hnp : p.monto_mensual ≤ 0) :
    porcentaje_usado txs p = 0 ∧
    (p.alerta_porcentaje = 80 → verificar_presupuestos [p] txs = []) := by
  have h : ¬ 0 < p.monto_mensual := not_lt.mpr hnp
  refine ⟨by rw [porcentaje_usado, if_neg h], ?_⟩
  intro h80
  have hth : ¬ p.alerta_porcentaje ≤ porcentaje_usado txs p := by
    rw [porcentaje_usado, if_neg h, h80]
    norm_num
  simp [verificar_presupuestos, hact, alerta_presupuesto_de, hth]

/-- C10 witness: an active zero-amount budget with the default threshold
produces no alert even with current-month spend present. -/
theorem claim_C10_presupuesto_no_positivo_witness :
    (Presupuesto.mk "Viajes" 0 80 true).activo = true ∧
    (Presupuesto.mk "Viajes" 0 80 true).monto_mensual ≤ 0 ∧
    porcentaje_usado [gastoEn "Viajes" 500 fechaEj] ⟨"Viajes", 0, 80, true⟩ = 0 ∧
    verificar_presupuestos [⟨"Viajes", 0, 80, true⟩]
      [gastoEn "Viajes" 500 fechaEj] = [] := by
  have h := claim_C10_presupuesto_no_positivo [gastoEn "Viajes" 500 fechaEj]
    ⟨"Viajes", 0, 80, true⟩ rfl (by norm_num)
  exact ⟨rfl, by norm_num, h.1, h.2 rfl⟩

/-! ## Statistics engine (src/data_processing/analysis.py, `AnalisisFinanciero`)

The class loads the full ledger snapshot into a DataFrame at construction;
here every operation takes that snapshot as the list `txs`. -/

/-- First-occurrence deduplication: pandas `Series.unique()`. -/
def uniqueFirst : List String → List String
  | [] => []
  | x :: xs => x :: uniqueFirst (xs.filter fun y => y != x)
termination_by l => l.length
decreasing_by simpa using Nat.lt_succ_of_le (List.length_filter_le _ _)

/-- pandas `Series.mean()` on an amount column. -/
def mediaQ (ms : List ℚ) : ℚ := ms.sum / ms.length

/-- pandas `Series.std()` squared: the sample variance (`ddof=1`).  (For a
single-element column pandas yields NaN; division by zero here yields `0`,
a value no verified operation reads.) -/
def varMuestral (ms : List ℚ) : ℚ :=
  ((ms.map fun m => (m - mediaQ ms) ^ 2).sum) / (ms.length - 1)

/-- The amount column of one category's expense rows
(`gastos[gastos['categoria'] == categoria]['monto']`). -/
def montosDe (gastos : List Transaccion) (c : String) : List ℚ :=
  (gastos.filter fun t => t.categoria == c).map (·.monto)

/-- One row of the `gastos_por_categoria` summary frame.  The `Desv_Std`
column (a real number produced by `pandas.std`, display-only and read by
no claim) is modelled separately by `desv_std_categoria`. -/
structure FilaCategoria where
  categoria : String
  Total : ℚ
  Promedio : ℚ
  Cantidad : ℕ
  Porcentaje : ℚ
deriving DecidableEq, Repr

/-- The `Desv_Std` column of `gastos_por_categoria` for category `c`. -/
noncomputable def desv_std_categoria (gastos : List Transaccion) (c : String) : ℝ :=
  Real.sqrt (varMuestral (montosDe gastos c))

/-- The row of the aggregation frame for category `c`: `sum`, `mean`,
`count` rounded to 2 decimals, plus the percentage column computed from
the rounded total. -/
def fila_categoria (total_gastos : ℚ) (gastos : List Transaccion) (c : String) :
    FilaCategoria :=
  { categoria := c
    Total := pyRound (montosDe gastos c).sum 2
    Promedio := pyRound (mediaQ (montosDe gastos c)) 2
    Cantidad := (montosDe gastos c).length
    Porcentaje := pyRound (pyRound (montosDe gastos c).sum 2 / total_gastos * 100) 2 }

/-- `AnalisisFinanciero.gastos_por_categoria`: group the expenses by
category, aggregate, sort descending by `Total`.  (pandas sorts group keys
alphabetically before `sort_values` re-orders by `Total`; the intermediate
key order is not observable after the final sort, so first-occurrence
order is used.) -/
def gastos_por_categoria (txs : List Transaccion) : List FilaCategoria :=
  let gastos := txs.filter fun t => t.tipo == "gasto"
  if gastos.isEmpty then [] else
    ((uniqueFirst (gastos.map (·.categoria))).map
      (fila_categoria ((gastos.map (·.monto)).sum) gastos)).mergeSort
      (fun a b => decide (b.Total ≤ a.Total))

/-- `uniqueFirst` preserves membership. -/
theorem mem_uniqueFirst (a : String) (l : List String) :
    a ∈ uniqueFirst l ↔ a ∈ l := by
  induction l using uniqueFirst.induct with
  | case1 => simp [uniqueFirst]
  | case2 x xs ih =>
      rw [uniqueFirst]
      by_cases hax : a = x
      · simp [hax]
      · simp only [List.mem_cons, ih, List.mem_filter, hax, false_or,
          bne_iff_ne, ne_eq, decide_eq_true_eq]
        tauto

/-- `uniqueFirst` produces a duplicate-free list. -/
theorem nodup_uniqueFirst (l : List String) : (uniqueFirst l).Nodup := by
  induction l using uniqueFirst.induct with
  | case1 => simp [uniqueFirst]
  | case2 x xs ih =>
      rw [uniqueFirst]
      refine List.nodup_cons.mpr ⟨?_, ih⟩
      intro hx
      have := (mem_uniqueFirst x _).mp hx
      simp at this

/-- Splitting a sum of amounts over one category test. -/
theorem filter_split_sum (l : List Transaccion) (c : String) :
    ((l.filter fun t => t.categoria == c).map (·.monto)).sum +
      ((l.filter fun t => t.categoria != c).map (·.monto)).sum =
      (l.map (·.monto)).sum := by
  induction l with
  | nil => simp
  | cons t ts ih =>
      by_cases h : t.categoria = c
      · simp only [List.filter_cons]
        simp [h]
        linarith [ih]
      · simp only [List.filter_cons]
        simp [h, beq_eq_false_iff_ne.mpr h]
        linarith [ih]

/-- Category totals over a duplicate-free list of category keys covering
all rows partition the grand total. -/
theorem sum_over_categorias (cs : List String) (l : List Transaccion)
    (hnd : cs.Nodup) (hall : ∀ t ∈ l, t.categoria ∈ cs) :
    (cs.map fun c => (montosDe l c).sum).sum = (l.map (·.monto)).sum := by
  induction cs generalizing l with
  | nil =>
      cases l with
      | nil => simp
      | cons t ts => exact absurd (hall t (List.mem_cons_self t ts)) (by simp)
  | cons c cs ih =>
      have hnd' : cs.Nodup := (List.nodup_cons.mp hnd).2
      have hcn : c ∉ cs := (List.nodup_cons.mp hnd).1
      have hall' : ∀ t ∈ l.filter fun t => t.categoria != c, t.categoria ∈ cs := by
        intro t ht
        rcases List.mem_filter.mp ht with ⟨htl, htc⟩
        rcases List.mem_cons.mp (hall t htl) with h | h
        · exact absurd h (by simpa using htc)
        · exact h
      have hsame : ∀ c' ∈ cs,
          montosDe (l.filter fun t => t.categoria != c) c' = montosDe l c' := by
        intro c' hc'
        have hne : c' ≠ c := fun h => hcn (h ▸ hc')
        unfold montosDe
        rw [List.filter_filter]
        congr 1
        apply List.filter_congr
        intro t _
        by_cases h : t.categoria = c'
        · simp [h, hne]
        · simp [beq_eq_false_iff_ne.mpr h]
      calc (((c :: cs)).map fun c' => (montosDe l c').sum).sum
          = (montosDe l c).sum + (cs.map fun c' => (montosDe l c').sum).sum := by
            simp
        _ = (montosDe l c).sum +
              (cs.map fun c' =>
                (montosDe (l.filter fun t => t.categoria != c) c').sum).sum := by
            congr 1
            refine congrArg List.sum (List.map_congr_left ?_)
            intro c' hc'
            rw [hsame c' hc']
        _ = (montosDe l c).sum +
              ((l.filter fun t => t.categoria != c).map (·.monto)).sum := by
            rw [ih _ hnd' hall']
        _ = (l.map (·.monto)).sum := filter_split_sum l c

/-- Denominator-one rationals are closed under sums of lists. -/
theorem den_one_sum (ms : List ℚ) (h : ∀ q ∈ ms, (q * 100).den = 1) :
    (ms.sum * 100).den = 1 := by
  induction ms with
  | nil => simp
  | cons q qs ih =>
      have hq := h q (List.mem_cons_self q qs)
      have hqs := ih fun q' hq' => h q' (List.mem_cons_of_mem _ hq')
      rw [List.sum_cons, add_mul,
        ← Rat.coe_int_num_of_den_eq_one hq, ← Rat.coe_int_num_of_den_eq_one hqs,
        ← Int.cast_add, Rat.den_intCast]

/-- Python `round(x, 2)` is the identity on whole-cent amounts. -/
theorem pyRound_cents (x : ℚ) (h : (x * 100).den = 1) : pyRound x 2 = x := by
  have hfloor : ((⌊x * 100⌋ : ℚ)) = x * 100 := by
    rw [← Rat.coe_int_num_of_den_eq_one h]
    norm_num
  unfold pyRound pyRoundUnit
  have h10 : ((10 : ℚ) ^ 2) = 100 := by norm_num
  rw [h10]
  rw [if_pos (by rw [hfloor]; norm_num)]
  rw [hfloor]
  field_simp

/-- C6: for every expense set of whole-cent amounts, the per-category
`Total` column of `gastos_por_categoria` sums to the total of all expense
amounts (partition invariant), and the rows are sorted in descending order
of `Total`. -/
theorem claim_C6_particion (txs : List Transaccion)
    (_hne : (txs.filter fun t => t.tipo == "gasto") ≠ [])
    (hcents : ∀ t ∈ txs, t.tipo = "gasto" → (t.monto * 100).den = 1) :
    ((gastos_por_categoria txs).map (·.Total)).sum =
      ((txs.filter fun t => t.tipo == "gasto").map (·.monto)).sum ∧
    (gastos_por_categoria txs).Pairwise (fun a b => b.Total ≤ a.Total) := by
  set gastos := txs.filter fun t => t.tipo == "gasto" with hg
  have hcg : ∀ t ∈ gastos, (t.monto * 100).den = 1 := by
    intro t ht
    rcases List.mem_filter.mp ht with ⟨htl, htt⟩
    exact hcents t htl (by simpa using htt)
  constructor
  · unfold gastos_por_categoria
    rw [← hg]
    by_cases he : gastos.isEmpty
    · rw [if_pos he]
      rw [List.isEmpty_iff.mp he]
      simp
    · rw [if_neg he]
      have hperm :
          ((((uniqueFirst (gastos.map (·.categoria))).map
            (fila_categoria ((gastos.map (·.monto)).sum) gastos)).mergeSort
            (fun a b => decide (b.Total ≤ a.Total))).map (·.Total)).sum =
          (((uniqueFirst (gastos.map (·.categoria))).map
            (fila_categoria ((gastos.map (·.monto)).sum) gastos)).map (·.Total)).sum :=
        ((List.mergeSort_perm _ _).map
          (fun fila : FilaCategoria => fila.Total)).sum_eq
      rw [hperm, List.map_map]
      have hTotal : ∀ c ∈ uniqueFirst (gastos.map (·.categoria)),
          ((·.Total) ∘ fila_categoria ((gastos.map (·.monto)).sum) gastos) c =
            (montosDe gastos c).sum := by
        intro c _
        show pyRound (montosDe gastos c).sum 2 = (montosDe gastos c).sum
        refine pyRound_cents _ (den_one_sum _ ?_)
        intro q hq
        unfold montosDe at hq
        rcases List.mem_map.mp hq with ⟨t, ht, rfl⟩
        exact hcg t (List.mem_filter.mp ht).1
      rw [List.map_congr_left hTotal]
      exact sum_over_categorias _ _ (nodup_uniqueFirst _)
        (fun t ht => (mem_uniqueFirst _ _).mpr (List.mem_map_of_mem (·.categoria) ht))
  · unfold gastos_por_categoria
    rw [← hg]
    by_cases he : gastos.isEmpty
    · rw [if_pos he]; simp
    · rw [if_neg he]
      have h := @List.sorted_mergeSort FilaCategoria
        (fun a b : FilaCategoria => decide (b.Total ≤ a.Total))
        (by intro a b c hab hbc
            simp only [decide_eq_true_eq] at *
            exact le_trans hbc hab)
        (by intro a b; simpa using le_total b.Total a.Total)
        ((uniqueFirst (gastos.map (·.categoria))).map
          (fila_categoria ((gastos.map (·.monto)).sum) gastos))
      exact h.imp (by simp)

/-- C6 witness: three whole-cent expenses over categories "A"/"B" satisfy
the partition invariant (`Total` column sums to `350`) and descending
order. -/
theorem claim_C6_particion_witness :
    (([gastoEn "A" 100 fechaEj, gastoEn "B" 200 fechaEj,
        gastoEn "A" 50 fechaEj].filter fun t => t.tipo == "gasto") ≠ []) ∧
    ((gastos_por_categoria
        [gastoEn "A" 100 fechaEj, gastoEn "B" 200 fechaEj,
          gastoEn "A" 50 fechaEj]).map (·.Total)).sum = 350 ∧
    (gastos_por_categoria
        [gastoEn "A" 100 fechaEj, gastoEn "B" 200 fechaEj,
          gastoEn "A" 50 fechaEj]).Pairwise (fun a b => b.Total ≤ a.Total) := by
  have h := claim_C6_particion
    [gastoEn "A" 100 fechaEj, gastoEn "B" 200 fechaEj, gastoEn "A" 50 fechaEj]
    (by simp [gastoEn]) ?_
  · refine ⟨by simp [gastoEn], ?_, h.2⟩
    rw [h.1]
    norm_num [gastoEn]
  · intro t ht _
    simp only [List.mem_cons, List.not_mem_nil, or_false] at ht
    rcases ht with rfl | rfl | rfl
    all_goals norm_num [gastoEn]

/-- Python `round(x, n)` on a real intermediate value (the reported
z-score divides by a square root). -/
noncomputable def pyRoundUnitR (x : ℝ) : ℤ :=
  if x - ⌊x⌋ < 1/2 then ⌊x⌋
  else if 1/2 < x - ⌊x⌋ then ⌊x⌋ + 1
  else if ⌊x⌋ % 2 = 0 then ⌊x⌋ else ⌊x⌋ + 1

/-- Python `round(x, d)` on reals. -/
noncomputable def pyRoundR (x : ℝ) (d : ℕ) : ℝ :=
  (pyRoundUnitR (x * 10 ^ d) : ℝ) / 10 ^ d

/-- One row of the `detectar_gastos_inusuales` result frame. -/
structure FilaInusual where
  fecha : Fecha
  categoria : String
  monto : ℚ
  promedio_categoria : ℚ
  desviacion : ℝ
  motivo : Option String

/-- The dict appended for one flagged expense, given its category's mean
and standard deviation: `desviacion = round((monto-media)/std, 2)` when
`std > 0`, else `0`. -/
noncomputable def filaInusualDe (media : ℚ) (s : ℝ) (t : Transaccion) : FilaInusual :=
  { fecha := t.fecha
    categoria := t.categoria
    monto := t.monto
    promedio_categoria := pyRound media 2
    desviacion := if 0 < s then pyRoundR (((t.monto : ℝ) - media) / s) 2 else 0
    motivo := t.motivo }

/-- The body of the per-category loop of `detectar_gastos_inusuales`:
skip categories with fewer than 3 samples, else flag the expenses above
`media + num_desv·std` where `std = sqrt` of the sample variance. -/
noncomputable def gastosInusualesCategoria (num_desv : ℚ) (gastos : List Transaccion)
    (c : String) : List FilaInusual :=
  if (montosDe gastos c).length < 3 then []
  else
    ((gastos.filter fun t => t.categoria == c).filter fun t =>
      decide ((mediaQ (montosDe gastos c) : ℝ) +
        num_desv * Real.sqrt (varMuestral (montosDe gastos c)) < (t.monto : ℝ))).map
      (filaInusualDe (mediaQ (montosDe gastos c))
        (Real.sqrt (varMuestral (montosDe gastos c))))

/-- `AnalisisFinanciero.detectar_gastos_inusuales`: nothing below 10 total
expense rows, then the per-category scan in first-occurrence category
order. -/
noncomputable def detectar_gastos_inusuales (txs : List Transaccion)
    (num_desv : ℚ) : List FilaInusual :=
  let gastos := txs.filter fun t => t.tipo == "gasto"
  if gastos.isEmpty || decide (gastos.length < 10) then []
  else (uniqueFirst (gastos.map (·.categoria))).flatMap
    (gastosInusualesCategoria num_desv gastos)

/-- Membership characterization of the unusual-expense scan (above the
10-row threshold): the rows are exactly the expenses above their
category's `media + num_desv·std`, for categories with at least 3
samples. -/
theorem mem_detectar_gastos_inusuales (txs : List Transaccion) (num_desv : ℚ) :
    ((txs.filter fun t => t.tipo == "gasto").isEmpty ||
        decide ((txs.filter fun t => t.tipo == "gasto").length < 10)) = false →
    ∀ fila, fila ∈ detectar_gastos_inusuales txs num_desv ↔
      ∃ t ∈ txs.filter fun t => t.tipo == "gasto",
        3 ≤ (montosDe (txs.filter fun t => t.tipo == "gasto") t.categoria).length ∧
        (mediaQ (montosDe (txs.filter fun t => t.tipo == "gasto") t.categoria) : ℝ) +
          num_desv * Real.sqrt (varMuestral
            (montosDe (txs.filter fun t => t.tipo == "gasto") t.categoria)) <
          (t.monto : ℝ) ∧
        fila = filaInusualDe
          (mediaQ (montosDe (txs.filter fun t => t.tipo == "gasto") t.categoria))
          (Real.sqrt (varMuestral
            (montosDe (txs.filter fun t => t.tipo == "gasto") t.categoria))) t := by
  set gastos := txs.filter fun t => t.tipo == "gasto" with hg
  intro hlen fila
  unfold detectar_gastos_inusuales
  rw [← hg, if_neg (by simp [hlen])]
  constructor
  · intro hmem
    rcases List.mem_flatMap.mp hmem with ⟨c, _, hfc⟩
    unfold gastosInusualesCategoria at hfc
    split_ifs at hfc with hshort
    · simp at hfc
    · rcases List.mem_map.mp hfc with ⟨t, htf, rfl⟩
      rcases List.mem_filter.mp htf with ⟨htf2, hgt⟩
      rcases List.mem_filter.mp htf2 with ⟨htg, htc⟩
      have hc' : t.categoria = c := by simpa using htc
      subst hc'
      exact ⟨t, htg, by omega, by simpa using hgt, rfl⟩
  · rintro ⟨t, htg, hlen3, hgt, rfl⟩
    apply List.mem_flatMap.mpr
    refine ⟨t.categoria, (mem_uniqueFirst _ _).mpr
      (List.mem_map_of_mem (·.categoria) htg), ?_⟩
    unfold gastosInusualesCategoria
    rw [if_neg (by omega)]
    exact List.mem_map.mpr
      ⟨t, List.mem_filter.mpr ⟨List.mem_filter.mpr ⟨htg, by simp⟩,
        by simpa using hgt⟩, rfl⟩

/-- C5 (amended): `detectar_gastos_inusuales` is empty below 10 expense
rows; otherwise its rows are exactly the expenses whose amount strictly
exceeds `media + num_desv·std` of a category with at least 3 samples,
each reported through `filaInusualDe` (hence with the z-score
`round((monto-media)/std, 2)`, `0` when `std = 0`); categories with fewer
than 3 samples contribute nothing; and an expense equal to
`media + (num_desv+0.5)·std` of its category is flagged **provided the
category's variance is positive** (with zero variance such an expense
equals the mean and is not flagged — the correction the counterexample
forces). -/
theorem claim_C5_inusuales (txs : List Transaccion) (num_desv : ℚ) :
    (((txs.filter fun t => t.tipo == "gasto").isEmpty ||
        decide ((txs.filter fun t => t.tipo == "gasto").length < 10)) = true →
      detectar_gastos_inusuales txs num_desv = []) ∧
    (((txs.filter fun t => t.tipo == "gasto").isEmpty ||
        decide ((txs.filter fun t => t.tipo == "gasto").length < 10)) = false →
      ∀ fila, fila ∈ detectar_gastos_inusuales txs num_desv ↔
        ∃ t ∈ txs.filter fun t => t.tipo == "gasto",
          3 ≤ (montosDe (txs.filter fun t => t.tipo == "gasto") t.categoria).length ∧
          (mediaQ (montosDe (txs.filter fun t => t.tipo == "gasto") t.categoria) : ℝ) +
            num_desv * Real.sqrt (varMuestral
              (montosDe (txs.filter fun t => t.tipo == "gasto") t.categoria)) <
            (t.monto : ℝ) ∧
          fila = filaInusualDe
            (mediaQ (montosDe (txs.filter fun t => t.tipo == "gasto") t.categoria))
            (Real.sqrt (varMuestral
              (montosDe (txs.filter fun t => t.tipo == "gasto") t.categoria))) t) ∧
    (∀ fila ∈ detectar_gastos_inusuales txs num_desv,
      3 ≤ (montosDe (txs.filter fun t => t.tipo == "gasto") fila.categoria).length) ∧
    (∀ t ∈ txs.filter fun t => t.tipo == "gasto",
      ((txs.filter fun t => t.tipo == "gasto").isEmpty ||
        decide ((txs.filter fun t => t.tipo == "gasto").length < 10)) = false →
      3 ≤ (montosDe (txs.filter fun t => t.tipo == "gasto") t.categoria).length →
      0 < varMuestral (montosDe (txs.filter fun t => t.tipo == "gasto") t.categoria) →
      (t.monto : ℝ) =
        (mediaQ (montosDe (txs.filter fun t => t.tipo == "gasto") t.categoria) : ℝ) +
          ((num_desv : ℝ) + 1/2) * Real.sqrt (varMuestral
            (montosDe (txs.filter fun t => t.tipo == "gasto") t.categoria)) →
      ∃ fila ∈ detectar_gastos_inusuales txs num_desv,
        fila.categoria = t.categoria ∧ fila.monto = t.monto) := by
  set gastos := txs.filter fun t => t.tipo == "gasto" with hg
  have hmem_iff := mem_detectar_gastos_inusuales txs num_desv
  rw [← hg] at hmem_iff
  refine ⟨?_, hmem_iff, ?_, ?_⟩
  · intro hlen
    unfold detectar_gastos_inusuales
    rw [← hg, if_pos hlen]
  · intro fila hmem
    by_cases hlen : (gastos.isEmpty || decide (gastos.length < 10)) = true
    · have : detectar_gastos_inusuales txs num_desv = [] := by
        unfold detectar_gastos_inusuales
        rw [← hg, if_pos hlen]
      rw [this] at hmem
      cases hmem
    · rcases (hmem_iff (by simpa using hlen) fila).mp hmem with ⟨t, _, hlen3, _, rfl⟩
      exact hlen3
  · intro t htg hlen hlen3 hvar heq
    have hs : 0 < Real.sqrt (varMuestral (montosDe gastos t.categoria)) :=
      Real.sqrt_pos.mpr (by exact_mod_cast hvar)
    refine ⟨filaInusualDe (mediaQ (montosDe gastos t.categoria))
      (Real.sqrt (varMuestral (montosDe gastos t.categoria))) t,
      (hmem_iff hlen _).mpr ⟨t, htg, hlen3, ?_, rfl⟩, rfl, rfl⟩
    rw [heq]
    nlinarith

/-- Concrete fixture: ten expenses, category "A" being three identical
`$5` expenses (sample variance `0`) and "B" seven identical `$1`
expenses. -/
def txsVarCero : List Transaccion :=
  [gastoEn "A" 5 fechaEj, gastoEn "A" 5 fechaEj, gastoEn "A" 5 fechaEj,
    gastoEn "B" 1 fechaEj, gastoEn "B" 1 fechaEj, gastoEn "B" 1 fechaEj,
    gastoEn "B" 1 fechaEj, gastoEn "B" 1 fechaEj, gastoEn "B" 1 fechaEj,
    gastoEn "B" 1 fechaEj]

/-- C5 counterexample: with `k = 2.5` and ten expenses, category "A" has
three samples and contains the amount `media + (k+0.5)·std` (here `5`,
because `std = 0`), yet `detectar_gastos_inusuales` flags nothing at all —
the claim's "flags an amount constructed as `mean + (k+0.5)·std` in a
category with ≥ 3 samples" fails when the category's deviation is zero. -/
theorem claim_C5_inusuales_counterexample :
    ((txsVarCero.filter fun t => t.tipo == "gasto").isEmpty ||
      decide ((txsVarCero.filter fun t => t.tipo == "gasto").length < 10)) = false ∧
    3 ≤ (montosDe (txsVarCero.filter fun t => t.tipo == "gasto") "A").length ∧
    gastoEn "A" 5 fechaEj ∈ (txsVarCero.filter fun t => t.tipo == "gasto") ∧
    ((5 : ℚ) : ℝ) =
      (mediaQ (montosDe (txsVarCero.filter fun t => t.tipo == "gasto") "A") : ℝ) +
        ((5/2 : ℝ) + 1/2) * Real.sqrt
          (varMuestral (montosDe (txsVarCero.filter fun t => t.tipo == "gasto") "A")) ∧
    detectar_gastos_inusuales txsVarCero (5/2) = [] := by
  have hfil : (txsVarCero.filter fun t => t.tipo == "gasto") = txsVarCero := by
    simp [txsVarCero, gastoEn]
  have hA : montosDe txsVarCero "A" = [5, 5, 5] := by
    simp [montosDe, txsVarCero, gastoEn]
  have hB : montosDe txsVarCero "B" = [1, 1, 1, 1, 1, 1, 1] := by
    simp [montosDe, txsVarCero, gastoEn]
  have hmediaA : mediaQ [(5 : ℚ), 5, 5] = 5 := by norm_num [mediaQ]
  have hvarA : varMuestral [(5 : ℚ), 5, 5] = 0 := by norm_num [varMuestral, mediaQ]
  have hmediaB : mediaQ [(1 : ℚ), 1, 1, 1, 1, 1, 1] = 1 := by norm_num [mediaQ]
  have hvarB : varMuestral [(1 : ℚ), 1, 1, 1, 1, 1, 1] = 0 := by
    norm_num [varMuestral, mediaQ]
  have hshort : ((txsVarCero.filter fun t => t.tipo == "gasto").isEmpty ||
      decide ((txsVarCero.filter fun t => t.tipo == "gasto").length < 10)) = false := by
    rw [hfil]
    simp [txsVarCero]
  refine ⟨hshort, by rw [hfil, hA]; norm_num, by rw [hfil]; simp [txsVarCero], ?_, ?_⟩
  · rw [hfil, hA, hmediaA, hvarA, Rat.cast_zero, Real.sqrt_zero]
    norm_num
  · apply List.eq_nil_iff_forall_not_mem.mpr
    intro fila hmem
    rcases (mem_detectar_gastos_inusuales txsVarCero (5/2) hshort fila).mp hmem with
      ⟨t, htg, _, hgt, _⟩
    rw [hfil] at htg hgt
    have ht : t = gastoEn "A" 5 fechaEj ∨ t = gastoEn "B" 1 fechaEj := by
      simpa [txsVarCero, or_assoc] using htg
    rcases ht with rfl | rfl
    · rw [show (gastoEn "A" 5 fechaEj).categoria = "A" from rfl, hA, hmediaA, hvarA,
        Rat.cast_zero, Real.sqrt_zero] at hgt
      norm_num [gastoEn] at hgt
    · rw [show (gastoEn "B" 1 fechaEj).categoria = "B" from rfl, hB, hmediaB, hvarB,
        Rat.cast_zero, Real.sqrt_zero] at hgt
      norm_num [gastoEn] at hgt

/-- Concrete fixture: ten expenses where category "A" is `[0, 0, 0, 8]`
(mean `2`, sample std `4`) so `8 = mean + 1.5·std` with `k = 1`, and "B"
is six identical `$1` expenses. -/
def txsInusual : List Transaccion :=
  [gastoEn "A" 0 fechaEj, gastoEn "A" 0 fechaEj, gastoEn "A" 0 fechaEj,
    gastoEn "A" 8 fechaEj, gastoEn "B" 1 fechaEj, gastoEn "B" 1 fechaEj,
    gastoEn "B" 1 fechaEj, gastoEn "B" 1 fechaEj, gastoEn "B" 1 fechaEj,
    gastoEn "B" 1 fechaEj]

/-- C5 witness: on the `[0,0,0,8]` category with `k = 1`, the amount
`8 = mean + (k+0.5)·std` (positive variance) is flagged. -/
theorem claim_C5_inusuales_witness :
    0 < varMuestral (montosDe (txsInusual.filter fun t => t.tipo == "gasto") "A") ∧
    ∃ fila ∈ detectar_gastos_inusuales txsInusual 1,
      fila.categoria = "A" ∧ fila.monto = 8 := by
  have hfil : (txsInusual.filter fun t => t.tipo == "gasto") = txsInusual := by
    simp [txsInusual, gastoEn]
  have hA : montosDe txsInusual "A" = [0, 0, 0, 8] := by
    simp [montosDe, txsInusual, gastoEn]
  have hmediaA : mediaQ [(0 : ℚ), 0, 0, 8] = 2 := by norm_num [mediaQ]
  have hvarA : varMuestral [(0 : ℚ), 0, 0, 8] = 16 := by norm_num [varMuestral, mediaQ]
  have hsqrt : Real.sqrt ((16 : ℚ) : ℝ) = 4 := by
    rw [show ((16 : ℚ) : ℝ) = 4 ^ 2 by norm_num, Real.sqrt_sq (by norm_num)]
  have h := (claim_C5_inusuales txsInusual 1).2.2.2 (gastoEn "A" 8 fechaEj)
    (by rw [hfil]; simp [txsInusual])
    (by rw [hfil]; simp [txsInusual, gastoEn])
    (by rw [hfil]
        rw [show (gastoEn "A" 8 fechaEj).categoria = "A" from rfl, hA]
        norm_num)
    (by rw [hfil]
        rw [show (gastoEn "A" 8 fechaEj).categoria = "A" from rfl, hA, hvarA]
        norm_num)
    (by rw [hfil]
        rw [show (gastoEn "A" 8 fechaEj).categoria = "A" from rfl, hA, hmediaA, hvarA,
          hsqrt]
        norm_num [gastoEn])
  refine ⟨by rw [hfil, hA, hvarA]; norm_num, ?_⟩
  rcases h with ⟨fila, hmem, hcat, hmonto⟩
  exact ⟨fila, hmem, by rw [hcat]; rfl, by rw [hmonto]; rfl⟩

/-! ## Expense predictor (src/models/prediccion_gastos.py, `PrediccionGastos`)

`sklearn` is an external collaborator: the regressor returned by `fit`,
`train_test_split` and the metric functions are opaque functions passed
through a `SklearnOracle`; a persisted pickle snapshot is passed as an
`Option SavedPred`. -/

/-- `sklearn.preprocessing.LabelEncoder`: after `fit`, `classes_` is the
sorted deduplicated value list; `transform` maps a value to its index and
raises `ValueError` (here `none`) for unseen values. -/
structure LabelEncoder where
  classes : List String
deriving DecidableEq, Repr

/-- Insert into a sorted duplicate-free list (helper for `fit`). -/
def insertSortedU (x : String) : List String → List String
  | [] => [x]
  | y :: ys =>
      if x < y then x :: y :: ys
      else if x == y then y :: ys
      else y :: insertSortedU x ys

/-- `LabelEncoder.fit`: `classes_ = np.unique(values)` (sorted, unique). -/
def LabelEncoder.fit (vals : List String) : LabelEncoder :=
  ⟨vals.foldr insertSortedU []⟩

/-- `LabelEncoder.transform` on one value. -/
def LabelEncoder.transform (e : LabelEncoder) (v : String) : Option ℕ :=
  e.classes.indexOf? v

/-- One engineered feature row (the DataFrame columns built by
`preparar_datos`; `predecir_gasto` rebuilds the same dict by hand). -/
structure FeatureRow where
  dia_semana : ℚ
  dia_mes : ℚ
  mes : ℚ
  trimestre : ℚ
  es_fin_semana : ℚ
  es_inicio_mes : ℚ
  es_fin_mes : ℚ
  es_recurrente : ℚ
  categoria_encoded : ℚ
  subcategoria_encoded : ℚ
  metodo_pago_encoded : ℚ
deriving DecidableEq, Repr

/-- Column selection `df[col]` on a feature row. -/
def FeatureRow.get (r : FeatureRow) (col : String) : ℚ :=
  if col == "dia_semana" then r.dia_semana
  else if col == "dia_mes" then r.dia_mes
  else if col == "mes" then r.mes
  else if col == "trimestre" then r.trimestre
  else if col == "es_fin_semana" then r.es_fin_semana
  else if col == "es_inicio_mes" then r.es_inicio_mes
  else if col == "es_fin_mes" then r.es_fin_mes
  else if col == "es_recurrente" then r.es_recurrente
  else if col == "categoria_encoded" then r.categoria_encoded
  else if col == "subcategoria_encoded" then r.subcategoria_encoded
  else if col == "metodo_pago_encoded" then r.metodo_pago_encoded
  else 0

/-- The fixed feature-column order assigned by `preparar_datos`. -/
def feature_columns_list : List String :=
  ["dia_semana", "dia_mes", "mes", "trimestre", "es_fin_semana", "es_inicio_mes",
    "es_fin_mes", "es_recurrente", "categoria_encoded", "subcategoria_encoded",
    "metodo_pago_encoded"]

/-- The feature engineering shared by training and prediction: temporal
fields from the `datetime` plus the three encoded categorical codes. -/
def mkFeatureRow (f : Fecha) (es_recurrente : Bool) (ccode scode mcode : ℕ) :
    FeatureRow :=
  { dia_semana := f.weekday
    dia_mes := f.day
    mes := f.month
    trimestre := (f.month - 1) / 3 + 1
    es_fin_semana := if 5 ≤ f.weekday then 1 else 0
    es_inicio_mes := if f.day ≤ 5 then 1 else 0
    es_fin_mes := if 25 ≤ f.day then 1 else 0
    es_recurrente := if es_recurrente then 1 else 0
    categoria_encoded := ccode
    subcategoria_encoded := scode
    metodo_pago_encoded := mcode }

/-- Predictor state: fitted estimator (as an opaque function over the
selected feature columns), the `label_encoders` dict in insertion order,
the stored feature-column order and the trained flag. -/
structure PrediccionGastos where
  model : Option (List ℚ → ℚ)
  label_encoders : List (String × LabelEncoder)
  feature_columns : List String
  is_trained : Bool

/-- `PrediccionGastos.__init__`. -/
def initPrediccionGastos : PrediccionGastos :=
  { model := none, label_encoders := [], feature_columns := [], is_trained := false }

/-- The column value fed to the encoders: `subcategoria` defaults to
`'Sin subcategoría'`. -/
def colValores (col : String) (t : Transaccion) : String :=
  if col == "categoria" then t.categoria
  else if col == "subcategoria" then t.subcategoria.getD "Sin subcategoría"
  else t.metodo_pago

/-- Sequence a list of per-value `transform` results; `none` models the
`ValueError` sklearn raises on the first unseen value. -/
def seqCodes : List (Option ℕ) → Option (List ℕ)
  | [] => some []
  | none :: _ => none
  | some n :: rest => (seqCodes rest).map (n :: ·)

/-- One iteration of the `for col in categorical_features` loop of
`preparar_datos`: fit a fresh encoder only when the dict has no entry for
`col`, otherwise reuse the stored encoder via `transform` (which may
raise). -/
def encodeCol (datos : List Transaccion) (enc : List (String × LabelEncoder))
    (col : String) : (List (String × LabelEncoder)) × Except PyErr (List ℕ) :=
  match enc.lookup col with
  | none =>
      (enc ++ [(col, LabelEncoder.fit (datos.map (colValores col)))],
        .ok ((datos.map (colValores col)).map
          fun v => ((LabelEncoder.fit (datos.map (colValores col))).transform v).getD 0))
  | some e =>
      match seqCodes ((datos.map (colValores col)).map e.transform) with
      | none => (enc, .error .valueError)
      | some codes => (enc, .ok codes)

/-- `PrediccionGastos.preparar_datos`: fail (`None, None`, here
`.ok none`) below 50 total transactions or without expense rows;
otherwise encode the three categorical columns in loop order
(`categoria`, `subcategoria`, `metodo_pago` — the literal
`categorical_features` list unrolled), build the feature matrix and
assign `self.feature_columns`.  The encoder dict is mutated in place, so
an encoding error still keeps the columns fitted before it. -/
def datosGasto (txs : List Transaccion) : List Transaccion :=
  txs.filter fun t => t.tipo == "gasto"

def preparar_datos (s : PrediccionGastos) (txs : List Transaccion) :
    PrediccionGastos × Except PyErr (Option (List FeatureRow × List ℚ)) :=
  if txs.isEmpty || decide (txs.length < 50) then (s, .ok none)
  else
    if (datosGasto txs).isEmpty then (s, .ok none)
    else
      match encodeCol (datosGasto txs) s.label_encoders "categoria" with
      | (enc1, .error e) => ({ s with label_encoders := enc1 }, .error e)
      | (enc1, .ok ccodes) =>
        match encodeCol (datosGasto txs) enc1 "subcategoria" with
        | (enc2, .error e) => ({ s with label_encoders := enc2 }, .error e)
        | (enc2, .ok scodes) =>
          match encodeCol (datosGasto txs) enc2 "metodo_pago" with
          | (enc3, .error e) => ({ s with label_encoders := enc3 }, .error e)
          | (enc3, .ok mcodes) =>
              ({ s with
                  label_encoders := enc3
                  feature_columns := feature_columns_list },
                .ok (some
                  (((datosGasto txs).zip (ccodes.zip (scodes.zip mcodes))).map
                    fun p =>
                      mkFeatureRow p.1.fecha p.1.es_recurrente p.2.1 p.2.2.1 p.2.2.2,
                    (datosGasto txs).map (·.monto))))

/-- The `entrenar` success metrics dict. -/
structure Metricas where
  mae : ℚ
  rmse : ℚ
  r2 : ℚ
  muestras_entrenamiento : ℕ
  muestras_prueba : ℕ
deriving DecidableEq, Repr

/-- The sklearn externals `entrenar` calls: the 80/20 split with fixed
seed, the regressor fit (Random Forest or XGBoost — both opaque), the
two error metrics, `r2_score` and `np.sqrt`. -/
structure SklearnOracle where
  train_test_split :
    List (List ℚ) → List ℚ → (List (List ℚ) × List (List ℚ) × List ℚ × List ℚ)
  fitRegressor : List (List ℚ) → List ℚ → (List ℚ → ℚ)
  mean_absolute_error : List ℚ → List ℚ → ℚ
  mean_squared_error : List ℚ → List ℚ → ℚ
  r2_score : List ℚ → List ℚ → ℚ
  np_sqrt : ℚ → ℚ

/-- `PrediccionGastos.entrenar`: returns `False` (`.ok none`) when the
prepared matrix is missing or has fewer than 50 rows; on success fits,
evaluates, persists (external I/O, a no-op here) and swaps in the new
model with `is_trained := true`. -/
def entrenar (o : SklearnOracle) (txs : List Transaccion) (s : PrediccionGastos) :
    PrediccionGastos × Except PyErr (Option Metricas) :=
  match preparar_datos s txs with
  | (s', .error e) => (s', .error e)
  | (s', .ok none) => (s', .ok none)
  | (s', .ok (some (rows, y))) =>
      if rows.length < 50 then (s', .ok none)
      else
        let X := rows.map fun r => s'.feature_columns.map r.get
        let split := o.train_test_split X y
        let m := o.fitRegressor split.1 split.2.2.1
        let ypred := split.2.1.map m
        ({ s' with model := some m, is_trained := true },
          .ok (some
            { mae := pyRound (o.mean_absolute_error split.2.2.2 ypred) 2
              rmse := pyRound (o.np_sqrt (o.mean_squared_error split.2.2.2 ypred)) 2
              r2 := pyRound (o.r2_score split.2.2.2 ypred) 3
              muestras_entrenamiento := split.1.length
              muestras_prueba := split.2.1.length }))

/-- A persisted predictor snapshot (`prediccion_gastos.pkl`). -/
structure SavedPred where
  model : List ℚ → ℚ
  label_encoders : List (String × LabelEncoder)
  feature_columns : List String

/-- The untrained-state prologue of `predecir_gasto`: try
`cargar_modelo()` (external pickle load, passed as `loaded`); on failure
train synchronously, ignoring the returned value but propagating an
exception if one escapes. -/
def cargarOEntrenar (o : SklearnOracle) (loaded : Option SavedPred)
    (txs : List Transaccion) (s : PrediccionGastos) :
    PrediccionGastos × Option PyErr :=
  if s.is_trained then (s, none)
  else
    match loaded with
    | some d =>
        ({ model := some d.model, label_encoders := d.label_encoders,
            feature_columns := d.feature_columns, is_trained := true }, none)
    | none =>
        match entrenar o txs s with
        | (s', .error e) => (s', some e)
        | (s', .ok _) => (s', none)

/-- `PrediccionGastos.predecir_gasto`: build the feature dict for the
given date (default `now`), encode the categorical arguments with the
stored encoders (`ValueError` is caught and yields `None`; a missing
dict entry is an uncaught `KeyError`), select `feature_columns`, run the
estimator (`AttributeError` if it is still `None`) and clamp the rounded
prediction at zero. -/
def predecir_gasto (o : SklearnOracle) (loaded : Option SavedPred)
    (txs : List Transaccion) (s : PrediccionGastos) (categoria : String)
    (subcategoria : Option String) (metodo_pago : String) (fecha : Option Fecha)
    (es_recurrente : Bool) (now : Fecha) :
    PrediccionGastos × Except PyErr (Option ℚ) :=
  match cargarOEntrenar o loaded txs s with
  | (s1, some e) => (s1, .error e)
  | (s1, none) =>
      let f := fecha.getD now
      match s1.label_encoders.lookup "categoria",
          s1.label_encoders.lookup "subcategoria",
          s1.label_encoders.lookup "metodo_pago" with
      | some ec, some es, some em =>
          match ec.transform categoria,
              es.transform (subcategoria.getD "Sin subcategoría"),
              em.transform metodo_pago with
          | some cc, some sc, some mc =>
              match s1.model with
              | none => (s1, .error .attributeError)
              | some m =>
                  (s1, .ok (some (max 0 (pyRound
                    (m (s1.feature_columns.map
                      (mkFeatureRow f es_recurrente cc sc mc).get)) 2))))
          | _, _, _ => (s1, .ok none)
      | _, _, _ => (s1, .error .keyError)

/-- Association-list lookups survive appending on the right. -/
theorem lookup_append_of_some (l₁ l₂ : List (String × LabelEncoder)) (k : String)
    (v : LabelEncoder) (h : l₁.lookup k = some v) : (l₁ ++ l₂).lookup k = some v := by
  induction l₁ with
  | nil => cases h
  | cons p l₁ ih =>
      rw [List.cons_append]
      rw [List.lookup] at h ⊢
      rcases hk : (k == p.1) with _ | _
      · rw [hk] at h
        exact ih h
      · rw [hk] at h
        exact h

/-- `encodeCol` never drops or replaces an existing dict entry. -/
theorem encodeCol_lookup_preserved (datos : List Transaccion)
    (enc : List (String × LabelEncoder)) (col k : String) (v : LabelEncoder)
    (h : enc.lookup k = some v) :
    (encodeCol datos enc col).1.lookup k = some v := by
  unfold encodeCol
  split
  · exact lookup_append_of_some _ _ _ _ h
  · split
    · exact h
    · exact h

/-- When the dict has an entry for `col`, `encodeCol` reuses it: the dict
is returned unchanged. -/
theorem encodeCol_reusa (datos : List Transaccion)
    (enc : List (String × LabelEncoder)) (col : String) (e : LabelEncoder)
    (h : enc.lookup col = some e) : (encodeCol datos enc col).1 = enc := by
  unfold encodeCol
  split
  · rename_i heq
    rw [h] at heq
    cases heq
  · split
    · rfl
    · rfl

/-- When the dict has no entry for `col`, `encodeCol` fits a fresh
encoder on this call's column values and appends it. -/
theorem encodeCol_fresco (datos : List Transaccion)
    (enc : List (String × LabelEncoder)) (col : String)
    (h : enc.lookup col = none) :
    encodeCol datos enc col =
      (enc ++ [(col, LabelEncoder.fit (datos.map (colValores col)))],
        .ok ((datos.map (colValores col)).map
          fun v => ((LabelEncoder.fit (datos.map (colValores col))).transform v).getD 0)) := by
  unfold encodeCol
  rw [h]

/-- `seqCodes` preserves length. -/
theorem seqCodes_length (l : List (Option ℕ)) (codes : List ℕ)
    (h : seqCodes l = some codes) : codes.length = l.length := by
  induction l generalizing codes with
  | nil => cases h; rfl
  | cons o rest ih =>
      cases o with
      | none => cases h
      | some n =>
          simp only [seqCodes] at h
          rcases hr : seqCodes rest with _ | codes'
          · rw [hr] at h; cases h
          · rw [hr] at h
            cases h
            simp [ih codes' hr]

/-- A successful `encodeCol` yields one code per row. -/
theorem encodeCol_ok_length (datos : List Transaccion)
    (enc : List (String × LabelEncoder)) (col : String) (codes : List ℕ)
    (h : (encodeCol datos enc col).2 = .ok codes) : codes.length = datos.length := by
  unfold encodeCol at h
  split at h
  · cases h
    simp
  · split at h
    · cases h
    · cases h
      rename_i heq
      have := seqCodes_length _ _ heq
      simpa using this

/-- `preparar_datos` never touches the fitted estimator or the trained
flag. -/
theorem preparar_datos_preserva (s : PrediccionGastos) (txs : List Transaccion) :
    (preparar_datos s txs).1.model = s.model ∧
    (preparar_datos s txs).1.is_trained = s.is_trained := by
  unfold preparar_datos
  split_ifs <;> try exact ⟨rfl, rfl⟩
  split <;> try exact ⟨rfl, rfl⟩
  split <;> try exact ⟨rfl, rfl⟩
  split <;> exact ⟨rfl, rfl⟩

/-- Below 50 total transactions (or with an empty ledger) `entrenar`
returns the failure value without touching any state. -/
theorem entrenar_corto (o : SklearnOracle) (txs : List Transaccion)
    (s : PrediccionGastos) (h : (txs.isEmpty || decide (txs.length < 50)) = true) :
    entrenar o txs s = (s, .ok none) := by
  have hp : preparar_datos s txs = (s, .ok none) := by
    unfold preparar_datos
    rw [if_pos h]
  unfold entrenar
  rw [hp]

/-- Whenever `entrenar` returns the failure value `False`, the fitted
estimator and the trained flag are untouched. -/
theorem entrenar_fallo_preserva (o : SklearnOracle) (txs : List Transaccion)
    (s : PrediccionGastos) (h : (entrenar o txs s).2 = .ok none) :
    (entrenar o txs s).1.model = s.model ∧
    (entrenar o txs s).1.is_trained = s.is_trained := by
  have hm := preparar_datos_preserva s txs
  unfold entrenar at h ⊢
  rcases hp : preparar_datos s txs with ⟨s', r⟩
  rw [hp] at h hm
  rcases r with e | r
  · simp at h
  · rcases r with _ | ⟨rows, y⟩
    · exact hm
    · by_cases hlen : rows.length < 50
      · simpa [hlen] using hm
      · simp [hlen] at h

/-- Trivial sklearn oracle used by the concrete fixtures. -/
def oTriv : SklearnOracle :=
  { train_test_split := fun X y => (X, [], y, [])
    fitRegressor := fun _ _ => fun _ => 0
    mean_absolute_error := fun _ _ => 0
    mean_squared_error := fun _ _ => 0
    r2_score := fun _ _ => 0
    np_sqrt := fun q => q }

/-- Concrete fixture: an income transaction. -/
def ingresoEn (c : String) (m : ℚ) (f : Fecha) : Transaccion :=
  ⟨"ingreso", f, m, c, none, "Efectivo", none, false⟩

/-- Concrete fixture: 50 total transactions of which exactly one is an
expense — `preparar_datos` passes the 50-transaction guard, fits the
encoders and assigns `feature_columns`, and only then `entrenar` rejects
the 1-row matrix. -/
def txsUnGasto : List Transaccion :=
  gastoEn "A" 10 fechaEj :: List.replicate 49 (ingresoEn "Sueldo" 100 fechaEj)

/-- With enough total transactions but not a single expense row,
`preparar_datos` takes the `if not datos: return None, None` branch
before any encoder work, so `entrenar` returns the failure value with the
state fully untouched. -/
theorem entrenar_sin_gastos (o : SklearnOracle) (txs : List Transaccion)
    (s : PrediccionGastos)
    (hg : (txs.isEmpty || decide (txs.length < 50)) = false)
    (hd : (datosGasto txs).isEmpty = true) :
    entrenar o txs s = (s, .ok none) := by
  have hp : preparar_datos s txs = (s, .ok none) := by
    unfold preparar_datos
    rw [if_neg (by simp [hg]), if_pos hd]
  unfold entrenar
  rw [hp]

/-- C3 (amended): when `entrenar` returns the failure value, the fitted
estimator and the trained flag observable by `predecir_gasto` are exactly
what they were before the call, and when the failure is an early guard —
fewer than 50 total transactions, or no expense rows at all — the whole
state is untouched; but (per the counterexample) a failure after data
preparation has already refitted absent encoders and overwritten
`feature_columns`. -/
theorem claim_C3_entrenar_atomicidad (o : SklearnOracle) (txs : List Transaccion)
    (s : PrediccionGastos) :
    ((entrenar o txs s).2 = .ok none →
      (entrenar o txs s).1.model = s.model ∧
      (entrenar o txs s).1.is_trained = s.is_trained) ∧
    ((txs.isEmpty || decide (txs.length < 50)) = true →
      entrenar o txs s = (s, .ok none)) ∧
    ((txs.isEmpty || decide (txs.length < 50)) = false →
      (datosGasto txs).isEmpty = true →
      entrenar o txs s = (s, .ok none)) :=
  ⟨entrenar_fallo_preserva o txs s, entrenar_corto o txs s, entrenar_sin_gastos o txs s⟩

/-- C3 counterexample: on 50 transactions with a single expense row and a
fresh predictor, `entrenar` returns the failure value yet has already
replaced `feature_columns` (empty before, the 11 columns after) and
fitted a `categoria` encoder — the failure path is not atomic. -/
theorem claim_C3_entrenar_atomicidad_counterexample :
    (entrenar oTriv txsUnGasto initPrediccionGastos).2 = .ok none ∧
    initPrediccionGastos.feature_columns = [] ∧
    (entrenar oTriv txsUnGasto initPrediccionGastos).1.feature_columns =
      feature_columns_list ∧
    initPrediccionGastos.label_encoders.lookup "categoria" = none ∧
    ((entrenar oTriv txsUnGasto initPrediccionGastos).1.label_encoders.lookup
      "categoria").isSome = true ∧
    feature_columns_list ≠ [] :=
  ⟨rfl, rfl, rfl, rfl, rfl, by decide⟩

/-- C3 witness: the amended theorem applied at the single-expense fixture
(failure value, estimator and flag untouched), at the empty ledger
(fully untouched state) and at a 50-income no-expense ledger (fully
untouched state on the no-expense-rows guard). -/
theorem claim_C3_entrenar_atomicidad_witness :
    (entrenar oTriv txsUnGasto initPrediccionGastos).2 = .ok none ∧
    (entrenar oTriv txsUnGasto initPrediccionGastos).1.model =
      initPrediccionGastos.model ∧
    (entrenar oTriv txsUnGasto initPrediccionGastos).1.is_trained =
      initPrediccionGastos.is_trained ∧
    (([] : List Transaccion).isEmpty ||
      decide (([] : List Transaccion).length < 50)) = true ∧
    entrenar oTriv [] initPrediccionGastos = (initPrediccionGastos, .ok none) ∧
    ((List.replicate 50 (ingresoEn "Sueldo" 100 fechaEj)).isEmpty ||
      decide ((List.replicate 50 (ingresoEn "Sueldo" 100 fechaEj)).length < 50)) =
      false ∧
    (datosGasto (List.replicate 50 (ingresoEn "Sueldo" 100 fechaEj))).isEmpty = true ∧
    entrenar oTriv (List.replicate 50 (ingresoEn "Sueldo" 100 fechaEj))
      initPrediccionGastos = (initPrediccionGastos, .ok none) := by
  have h1 := (claim_C3_entrenar_atomicidad oTriv txsUnGasto initPrediccionGastos).1 rfl
  have h2 := (claim_C3_entrenar_atomicidad oTriv [] initPrediccionGastos).2.1 (by decide)
  have h3 := (claim_C3_entrenar_atomicidad oTriv
    (List.replicate 50 (ingresoEn "Sueldo" 100 fechaEj)) initPrediccionGastos).2.2
    (by decide) (by decide)
  exact ⟨rfl, h1.1, h1.2, by decide, h2, by decide, by decide, h3⟩

/-- `preparar_datos` keeps every encoder that already existed before the
call. -/
theorem preparar_datos_lookup_preserved (s : PrediccionGastos)
    (txs : List Transaccion) (col : String) (e : LabelEncoder)
    (h : s.label_encoders.lookup col = some e) :
    (preparar_datos s txs).1.label_encoders.lookup col = some e := by
  unfold preparar_datos
  split_ifs <;> try exact h
  rcases heq1 : encodeCol (datosGasto txs) s.label_encoders "categoria" with ⟨enc1, r1⟩
  have h1 : enc1.lookup col = some e := by
    have hx := encodeCol_lookup_preserved (datosGasto txs) s.label_encoders "categoria"
      col e h
    rw [heq1] at hx
    exact hx
  rcases r1 with er1 | ccodes
  · exact h1
  · dsimp only
    rcases heq2 : encodeCol (datosGasto txs) enc1 "subcategoria" with ⟨enc2, r2⟩
    have h2 : enc2.lookup col = some e := by
      have hx := encodeCol_lookup_preserved (datosGasto txs) enc1 "subcategoria" col e h1
      rw [heq2] at hx
      exact hx
    rcases r2 with er2 | scodes
    · exact h2
    · dsimp only
      rcases heq3 : encodeCol (datosGasto txs) enc2 "metodo_pago" with ⟨enc3, r3⟩
      have h3 : enc3.lookup col = some e := by
        have hx := encodeCol_lookup_preserved (datosGasto txs) enc2 "metodo_pago" col e h2
        rw [heq3] at hx
        exact hx
      rcases r3 with er3 | mcodes
      · exact h3
      · exact h3

/-- C4 (amended): a successful `entrenar` call fits fresh encoders only
for columns that had none; every encoder already stored before the call
is still stored, identical, afterwards — so after a retrain the
vocabularies are those of the *first* fit, not of the most recent
training set. -/
theorem claim_C4_encoders_reutilizados (o : SklearnOracle) (txs : List Transaccion)
    (s : PrediccionGastos) (m : Metricas)
    (_hsucc : (entrenar o txs s).2 = .ok (some m)) :
    ∀ col e, s.label_encoders.lookup col = some e →
      (entrenar o txs s).1.label_encoders.lookup col = some e := by
  intro col e h
  have hp := preparar_datos_lookup_preserved s txs col e h
  unfold entrenar
  rcases hq : preparar_datos s txs with ⟨s', r⟩
  rw [hq] at hp
  rcases r with er | r
  · exact hp
  · rcases r with _ | ⟨rows, y⟩
    · exact hp
    · by_cases hlen : rows.length < 50
      · simpa [hlen] using hp
      · simpa [hlen] using hp

/-- Concrete fixture: a predictor state as loaded from a snapshot whose
encoders were fitted on categories `A` and `B`. -/
def sPre : PrediccionGastos :=
  { model := some fun _ => 0
    label_encoders :=
      [("categoria", ⟨["A", "B"]⟩), ("subcategoria", ⟨["Sin subcategoría"]⟩),
        ("metodo_pago", ⟨["Efectivo"]⟩)]
    feature_columns := feature_columns_list
    is_trained := true }

/-- Concrete fixture: 50 expenses all in category `A`. -/
def txsA50 : List Transaccion := List.replicate 50 (gastoEn "A" 10 fechaEj)

/-- C4 counterexample: retraining the `{A,B}`-fitted predictor on 50
expenses containing only category `A` succeeds, yet the stored
`categoria` vocabulary is still `["A","B"]` — not the values of the most
recent training set, which does not contain `"B"`.  Encoders are *not*
refit on a successful retrain. -/
theorem claim_C4_encoders_reutilizados_counterexample :
    (∃ m, (entrenar oTriv txsA50 sPre).2 = .ok (some m)) ∧
    (entrenar oTriv txsA50 sPre).1.label_encoders.lookup "categoria" =
      some ⟨["A", "B"]⟩ ∧
    "B" ∉ (txsA50.filter fun t => t.tipo == "gasto").map (·.categoria) :=
  ⟨⟨_, rfl⟩, rfl, by decide⟩

/-- C4 witness: the amended theorem applied to the successful `A`-only
retrain — the pre-existing `categoria` encoder survives identically. -/
theorem claim_C4_encoders_reutilizados_witness :
    sPre.label_encoders.lookup "categoria" = some ⟨["A", "B"]⟩ ∧
    (entrenar oTriv txsA50 sPre).1.label_encoders.lookup "categoria" =
      some ⟨["A", "B"]⟩ :=
  ⟨rfl, claim_C4_encoders_reutilizados oTriv txsA50 sPre _ rfl "categoria"
    ⟨["A", "B"]⟩ rfl⟩

/-- C8: with fewer than 50 expense transactions, `entrenar` on a fresh
predictor returns the non-exceptional failure value `False` and leaves
`is_trained` false.  (Either the 50-total-transactions guard fires, or
the expense matrix itself has fewer than 50 rows.) -/
theorem claim_C8_insuficientes (o : SklearnOracle) (txs : List Transaccion)
    (h : (txs.filter fun t => t.tipo == "gasto").length < 50) :
    (entrenar o txs initPrediccionGastos).2 = .ok none ∧
    (entrenar o txs initPrediccionGastos).1.is_trained = false := by
  by_cases hg : (txs.isEmpty || decide (txs.length < 50)) = true
  · rw [entrenar_corto o txs initPrediccionGastos hg]
    exact ⟨rfl, rfl⟩
  · have hp : (preparar_datos initPrediccionGastos txs).2 = .ok none ∨
        ∃ rows y, (preparar_datos initPrediccionGastos txs).2 = .ok (some (rows, y)) ∧
          rows.length = (datosGasto txs).length := by
      unfold preparar_datos
      rw [if_neg (by simpa using hg)]
      by_cases hde : (datosGasto txs).isEmpty
      · rw [if_pos hde]
        exact Or.inl rfl
      · rw [if_neg hde]
        rcases heq1 : encodeCol (datosGasto txs)
            initPrediccionGastos.label_encoders "categoria" with ⟨enc1, r1⟩
        have hl1 := encodeCol_ok_length (datosGasto txs)
          initPrediccionGastos.label_encoders "categoria"
        rcases r1 with er1 | ccodes
        · have : initPrediccionGastos.label_encoders.lookup "categoria" = none := rfl
          rw [encodeCol_fresco _ _ _ this] at heq1
          cases heq1
        · dsimp only
          rcases heq2 : encodeCol (datosGasto txs) enc1 "subcategoria" with ⟨enc2, r2⟩
          have hl2 := encodeCol_ok_length (datosGasto txs) enc1 "subcategoria"
          rcases r2 with er2 | scodes
          · have h1 : enc1.lookup "subcategoria" = none := by
              have hfresh : initPrediccionGastos.label_encoders.lookup "categoria" =
                none := rfl
              rw [encodeCol_fresco _ _ _ hfresh] at heq1
              cases heq1
              rfl
            rw [encodeCol_fresco _ _ _ h1] at heq2
            cases heq2
          · dsimp only
            rcases heq3 : encodeCol (datosGasto txs) enc2 "metodo_pago" with ⟨enc3, r3⟩
            have hl3 := encodeCol_ok_length (datosGasto txs) enc2 "metodo_pago"
            rcases r3 with er3 | mcodes
            · have hfresh : initPrediccionGastos.label_encoders.lookup "categoria" =
                none := rfl
              rw [encodeCol_fresco _ _ _ hfresh] at heq1
              cases heq1
              have h1 : (initPrediccionGastos.label_encoders ++
                  [("categoria", LabelEncoder.fit
                    ((datosGasto txs).map (colValores "categoria")))]).lookup
                  "subcategoria" = none := rfl
              rw [encodeCol_fresco _ _ _ h1] at heq2
              cases heq2
              have h2 : ((initPrediccionGastos.label_encoders ++
                  [("categoria", LabelEncoder.fit
                    ((datosGasto txs).map (colValores "categoria")))]) ++
                  [("subcategoria", LabelEncoder.fit
                    ((datosGasto txs).map (colValores "subcategoria")))]).lookup
                  "metodo_pago" = none := rfl
              rw [encodeCol_fresco _ _ _ h2] at heq3
              cases heq3
            · dsimp only
              refine Or.inr ⟨_, _, rfl, ?_⟩
              have hc := hl1 ccodes (by rw [heq1])
              have hs := hl2 scodes (by rw [heq2])
              have hm := hl3 mcodes (by rw [heq3])
              simp [List.length_zip, hc, hs, hm]
    have hit : (preparar_datos initPrediccionGastos txs).1.is_trained = false :=
      (preparar_datos_preserva initPrediccionGastos txs).2
    unfold entrenar
    rcases hq : preparar_datos initPrediccionGastos txs with ⟨s', r⟩
    rw [hq] at hp hit
    rcases hp with hp | ⟨rows, y, hp, hlen⟩
    · simp only at hp
      rw [hp]
      exact ⟨rfl, hit⟩
    · simp only at hp
      rw [hp]
      have hr50 : rows.length < 50 := by
        rw [hlen]
        simpa [datosGasto] using h
      dsimp only
      rw [if_pos hr50]
      exact ⟨rfl, hit⟩

/-- C8 witness: exactly 10 expense transactions — the failure value comes
back and the fresh predictor stays untrained. -/
theorem claim_C8_insuficientes_witness :
    ((List.replicate 10 (gastoEn "Comida" 50 fechaEj)).filter
      fun t => t.tipo == "gasto").length < 50 ∧
    (entrenar oTriv (List.replicate 10 (gastoEn "Comida" 50 fechaEj))
      initPrediccionGastos).2 = .ok none ∧
    (entrenar oTriv (List.replicate 10 (gastoEn "Comida" 50 fechaEj))
      initPrediccionGastos).1.is_trained = false := by
  have h := claim_C8_insuficientes oTriv
    (List.replicate 10 (gastoEn "Comida" 50 fechaEj)) (by decide)
  exact ⟨by decide, h.1, h.2⟩

/-- C9: with the model trained, `predecir_gasto` with an explicit `fecha`
neither mutates the state nor reads the oracle, the snapshot, the ledger
or the ambient clock: calling it twice in a row with identical arguments
(even under different clocks, oracles and ledgers) returns the identical
value. -/
theorem claim_C9_determinismo (o1 o2 : SklearnOracle) (l1 l2 : Option SavedPred)
    (t1 t2 : List Transaccion) (s : PrediccionGastos) (categoria : String)
    (subcategoria : Option String) (metodo_pago : String) (f : Fecha)
    (es_recurrente : Bool) (now1 now2 : Fecha) (h : s.is_trained = true) :
    (predecir_gasto o1 l1 t1 s categoria subcategoria metodo_pago (some f)
      es_recurrente now1).1 = s ∧
    (predecir_gasto o1 l1 t1 s categoria subcategoria metodo_pago (some f)
      es_recurrente now1).2 =
    (predecir_gasto o2 l2 t2
      (predecir_gasto o1 l1 t1 s categoria subcategoria metodo_pago (some f)
        es_recurrente now1).1
      categoria subcategoria metodo_pago (some f) es_recurrente now2).2 := by
  have hc1 : cargarOEntrenar o1 l1 t1 s = (s, none) := by
    unfold cargarOEntrenar
    rw [if_pos h]
  have hc2 : cargarOEntrenar o2 l2 t2 s = (s, none) := by
    unfold cargarOEntrenar
    rw [if_pos h]
  have hstate : (predecir_gasto o1 l1 t1 s categoria subcategoria metodo_pago (some f)
      es_recurrente now1).1 = s := by
    unfold predecir_gasto
    rw [hc1]
    dsimp only
    repeat' split
    all_goals rfl
  refine ⟨hstate, ?_⟩
  rw [hstate]
  unfold predecir_gasto
  rw [hc1, hc2]
  rfl

/-- Concrete fixture: a trained predictor state. -/
def sEntrenado : PrediccionGastos :=
  { model := some fun xs => xs.sum
    label_encoders :=
      [("categoria", ⟨["A"]⟩), ("subcategoria", ⟨["Sin subcategoría"]⟩),
        ("metodo_pago", ⟨["Efectivo"]⟩)]
    feature_columns := feature_columns_list
    is_trained := true }

/-- C9 witness: two consecutive calls on a trained state under different
ambient clocks return the identical value and leave the state intact. -/
theorem claim_C9_determinismo_witness :
    sEntrenado.is_trained = true ∧
    (predecir_gasto oTriv none [] sEntrenado "A" none "Efectivo" (some fechaEj)
      false fechaEj).1 = sEntrenado ∧
    (predecir_gasto oTriv none [] sEntrenado "A" none "Efectivo" (some fechaEj)
      false fechaEj).2 =
    (predecir_gasto oTriv none []
      (predecir_gasto oTriv none [] sEntrenado "A" none "Efectivo" (some fechaEj)
        false fechaEj).1
      "A" none "Efectivo" (some fechaEj) false (fechaAntes 60)).2 := by
  have h := claim_C9_determinismo oTriv oTriv none none [] [] sEntrenado "A" none
    "Efectivo" fechaEj false fechaEj (fechaAntes 60) rfl
  exact ⟨rfl, h.1, h.2⟩

/-! ## Anomaly detector (src/models/detector_anomalias.py, `DetectorAnomalias`)

The Isolation Forest and the StandardScaler are sklearn externals
(supplied through a `DetectorOracle`); feature values live in `ℝ`
(`log1p`, standard deviations). -/

/-- One engineered detector feature row. -/
structure DetRow where
  monto : ℝ
  monto_log : ℝ
  desviacion_categoria : ℝ
  dia_semana : ℝ
  hora : ℝ
  dia_mes : ℝ
  es_fin_semana : ℝ
  es_noche : ℝ

/-- A fitted Isolation Forest: `predict` returns `1`/`-1`,
`score_samples` a real score. -/
structure DetModelIF where
  predict : DetRow → ℤ
  score_samples : DetRow → ℝ

/-- sklearn externals used by the detector: fitting the scaler on a batch
(returning the fitted transform) and fitting the Isolation Forest with a
contamination fraction. -/
structure DetectorOracle where
  scalerFit : List DetRow → (DetRow → DetRow)
  isolationForest : ℚ → List DetRow → DetModelIF

/-- Detector state: `scaler` is `none` while the `StandardScaler()` from
`__init__` is still unfitted (its `transform` would raise
`NotFittedError`). -/
structure DetectorAnomalias where
  model : Option DetModelIF
  scaler : Option (DetRow → DetRow)
  is_trained : Bool
  umbral_contaminacion : ℚ

/-- `DetectorAnomalias.__init__`. -/
def initDetectorAnomalias : DetectorAnomalias :=
  { model := none, scaler := none, is_trained := false, umbral_contaminacion := 1/10 }

/-- `np.std` (population, `ddof=0`). -/
noncomputable def npStd (ms : List ℚ) : ℝ :=
  Real.sqrt (((ms.map fun m => ((m : ℝ) - (mediaQ ms : ℝ)) ^ 2).sum) / ms.length)

/-- One training feature row of `DetectorAnomalias.preparar_datos`: the
per-category mean/std come from the training expenses themselves
(`groupby('categoria').agg(['mean','std'])`, sample std; pandas yields
NaN for a single-row category, idealized here as `0`). -/
noncomputable def detFilaDe (datos : List Transaccion) (t : Transaccion) : DetRow :=
  { monto := (t.monto : ℝ)
    monto_log := Real.log (1 + (t.monto : ℝ))
    desviacion_categoria :=
      ((t.monto : ℝ) - (mediaQ (montosDe datos t.categoria) : ℝ)) /
        (Real.sqrt (varMuestral (montosDe datos t.categoria)) + 1/1000000)
    dia_semana := t.fecha.weekday
    hora := t.fecha.hour
    dia_mes := t.fecha.day
    es_fin_semana := if 5 ≤ t.fecha.weekday then 1 else 0
    es_noche := if 22 ≤ t.fecha.hour ∨ t.fecha.hour ≤ 6 then 1 else 0 }

/-- `DetectorAnomalias.preparar_datos`.  Below 30 total transactions the
source returns a bare `None` (`.ok none` here, NOT a pair — the caller
unpacks it).  With enough transactions but no expense rows the
`groupby('categoria')` on a column-less empty frame raises `KeyError`. -/
noncomputable def detPreparar_datos (txs : List Transaccion) :
    Except PyErr (Option (List DetRow)) :=
  if txs.isEmpty || decide (txs.length < 30) then .ok none
  else
    if (datosGasto txs).isEmpty then .error .keyError
    else .ok (some ((datosGasto txs).map (detFilaDe (datosGasto txs))))

/-- The `entrenar` success dict of the detector. -/
structure DetMetricas where
  total_transacciones : ℕ
  anomalias_detectadas : ℕ
  porcentaje_anomalias : ℚ
deriving DecidableEq, Repr

/-- `DetectorAnomalias.entrenar`.  The line
`features, df_original = self.preparar_datos()` unpacks the bare `None`
returned on insufficient data, raising `TypeError` *before* the
`if features is None` guard can run — `.ok none` maps to
`.error .typeError`, never to the falsy return the guard intended. -/
noncomputable def detEntrenar (o : DetectorOracle) (txs : List Transaccion)
    (s : DetectorAnomalias) : DetectorAnomalias × Except PyErr (Option DetMetricas) :=
  match detPreparar_datos txs with
  | .error e => (s, .error e)
  | .ok none => (s, .error .typeError)
  | .ok (some rows) =>
      if rows.length < 30 then (s, .ok none)
      else
        let scaler := o.scalerFit rows
        let m := o.isolationForest s.umbral_contaminacion (rows.map scaler)
        ({ s with model := some m, scaler := some scaler, is_trained := true },
          .ok (some
            { total_transacciones := rows.length
              anomalias_detectadas :=
                ((rows.map scaler).filter fun r => m.predict r == -1).length
              porcentaje_anomalias :=
                pyRound ((((rows.map scaler).filter
                  fun r => m.predict r == -1).length : ℚ) / rows.length * 100) 2 }))

/-- Outcome of the untrained-detector prologue of `detectar_anomalia`. -/
inductive DetPaso where
  | continuar
  | noDisponible
  | excepcion (e : PyErr)

/-- The untrained-state prologue of `detectar_anomalia`: try `load()`
(external pickle, passed as `loaded`); on failure call `entrenar`
synchronously — a falsy result means "model unavailable", an exception
propagates. -/
noncomputable def detAutoEntrena (o : DetectorOracle)
    (loaded : Option (DetModelIF × (DetRow → DetRow))) (txs : List Transaccion)
    (s : DetectorAnomalias) : DetectorAnomalias × DetPaso :=
  if s.is_trained then (s, .continuar)
  else
    match loaded with
    | some d =>
        ({ s with model := some d.1, scaler := some d.2, is_trained := true },
          .continuar)
    | none =>
        match detEntrenar o txs s with
        | (s', .error e) => (s', .excepcion e)
        | (s', .ok none) => (s', .noDisponible)
        | (s', .ok (some _)) => (s', .continuar)

/-- The deterministic explanation selected by `detectar_anomalia`. -/
inductive MensajeAnomalia where
  | muchoMayor        -- monto > 2·mean: "x times above the average"
  | muchoMenor        -- monto < 0.3·mean: "significantly below the average"
  | combinacionInusual
  | rangoNormal
deriving DecidableEq, Repr

/-- The result dict of `detectar_anomalia`, one constructor per return
shape of the source. -/
inductive RespuestaDeteccion where
  | modeloNoDisponible
  | sinHistorico
  | analizada (es_anomalia : Bool) (confianza : ℝ) (score : ℝ)
      (mensaje : MensajeAnomalia) (promedio_categoria : ℚ) (desviaciones_std : ℝ)

/-- `DetectorAnomalias.detectar_anomalia`: auto-train when untrained
(returning the confidence-0 "Modelo no disponible" dict if training
returns falsy — and crashing if it raises); "no history" dict when the
category has no expenses; otherwise live per-category statistics
(population std, `1` for a single sample), scaling, prediction,
`confianza = min(100, max(0, |score|·50))` and the threshold-based
message. -/
noncomputable def detectar_anomalia (o : DetectorOracle)
    (loaded : Option (DetModelIF × (DetRow → DetRow))) (txs : List Transaccion)
    (s : DetectorAnomalias) (monto : ℚ) (categoria : String) (fecha : Option Fecha)
    (now : Fecha) : DetectorAnomalias × Except PyErr RespuestaDeteccion :=
  match detAutoEntrena o loaded txs s with
  | (s1, .excepcion e) => (s1, .error e)
  | (s1, .noDisponible) => (s1, .ok .modeloNoDisponible)
  | (s1, .continuar) =>
      if ((txs.filter fun t => t.tipo == "gasto" && t.categoria == categoria).map
          (·.monto)).isEmpty
      then (s1, .ok .sinHistorico)
      else
        let gastosCat :=
          (txs.filter fun t => t.tipo == "gasto" && t.categoria == categoria).map
            (·.monto)
        let categoria_mean := mediaQ gastosCat
        let categoria_std : ℝ := if 1 < gastosCat.length then npStd gastosCat else 1
        let desviacion :=
          ((monto : ℝ) - (categoria_mean : ℝ)) / (categoria_std + 1/1000000)
        let f := fecha.getD now
        let row : DetRow :=
          { monto := (monto : ℝ)
            monto_log := Real.log (1 + (monto : ℝ))
            desviacion_categoria := desviacion
            dia_semana := f.weekday
            hora := f.hour
            dia_mes := f.day
            es_fin_semana := if 5 ≤ f.weekday then 1 else 0
            es_noche := if 22 ≤ f.hour ∨ f.hour ≤ 6 then 1 else 0 }
        match s1.scaler with
        | none => (s1, .error .notFittedError)
        | some sc =>
            match s1.model with
            | none => (s1, .error .attributeError)
            | some m =>
                let score := m.score_samples (sc row)
                let es_anomalia := m.predict (sc row) == -1
                let confianza := min (100 : ℝ) (max 0 (|score| * 50))
                let mensaje :=
                  if es_anomalia then
                    if (monto : ℝ) > (categoria_mean : ℝ) * 2 then
                      MensajeAnomalia.muchoMayor
                    else if (monto : ℝ) < (categoria_mean : ℝ) * (3/10) then
                      MensajeAnomalia.muchoMenor
                    else MensajeAnomalia.combinacionInusual
                  else MensajeAnomalia.rangoNormal
                (s1, .ok (.analizada es_anomalia (pyRoundR confianza 2)
                  (pyRoundR score 4) mensaje (pyRound categoria_mean 2)
                  (pyRoundR desviacion 2)))

/-- With fewer than 30 transactions the detector's `entrenar` does not
return the falsy failure value the guard intended: it raises `TypeError`
unpacking the bare `None` from `preparar_datos`. -/
theorem detEntrenar_typeError (o : DetectorOracle) (txs : List Transaccion)
    (s : DetectorAnomalias) (h : (txs.isEmpty || decide (txs.length < 30)) = true) :
    detEntrenar o txs s = (s, .error .typeError) := by
  have hp : detPreparar_datos txs = .ok none := by
    unfold detPreparar_datos
    rw [if_pos h]
  unfold detEntrenar
  rw [hp]

/-- The `TypeError` propagates out of `detectar_anomalia` when the
detector is untrained, no snapshot loads, and the ledger holds fewer than
30 transactions. -/
theorem detectar_anomalia_typeError (o : DetectorOracle) (txs : List Transaccion)
    (monto : ℚ) (categoria : String) (fecha : Option Fecha) (now : Fecha)
    (h : (txs.isEmpty || decide (txs.length < 30)) = true) :
    detectar_anomalia o none txs initDetectorAnomalias monto categoria fecha now =
      (initDetectorAnomalias, .error .typeError) := by
  have ha : detAutoEntrena o none txs initDetectorAnomalias =
      (initDetectorAnomalias, .excepcion .typeError) := by
    unfold detAutoEntrena
    rw [if_neg (show ¬(initDetectorAnomalias.is_trained = true) by
      simp [initDetectorAnomalias])]
    dsimp only
    rw [detEntrenar_typeError o txs _ h]
  unfold detectar_anomalia
  rw [ha]

/-- Concrete fixture: a ledger of 10 expense transactions — below every
training threshold. -/
def txs10det : List Transaccion := List.replicate 10 (gastoEn "Comida" 50 fechaEj)

/-- Trivial detector oracle for the fixtures. -/
noncomputable def oDetTriv : DetectorOracle :=
  { scalerFit := fun _ => id
    isolationForest := fun _ _ => ⟨fun _ => 1, fun _ => 0⟩ }

/-- C1: on a 10-transaction ledger (fewer than 30), the detector's
`entrenar` raises `TypeError` instead of returning the falsy failure
value, and `detectar_anomalia` on an untrained detector with no loadable
snapshot propagates that `TypeError` instead of returning the
confidence-0 non-anomalous dict — the never-crash contract is broken by
the `features, df_original = self.preparar_datos()` unpacking of the bare
`None`. -/
theorem claim_C1_detector_crash :
    detEntrenar oDetTriv txs10det initDetectorAnomalias =
      (initDetectorAnomalias, .error .typeError) ∧
    detectar_anomalia oDetTriv none txs10det initDetectorAnomalias 50 "Comida"
      (some fechaEj) fechaEj = (initDetectorAnomalias, .error .typeError) :=
  ⟨detEntrenar_typeError oDetTriv txs10det initDetectorAnomalias (by decide),
    detectar_anomalia_typeError oDetTriv txs10det 50 "Comida" (some fechaEj) fechaEj
      (by decide)⟩
